import Mathlib

/-!
Verification development for the StructuralTools wind-loading engine
(`structuraltools/utils.py` and `structuraltools/asce/wind_loading.py`).

The Python code is shallowly embedded over `ℝ`:

* machine floats become real numbers, with Python's raising division
  modelled by `pydiv` (a zero denominator raises `ZeroDivisionError`);
* Python exceptions become an explicit `PyError` value in `Except`;
* JSON coefficient records become association lists of `Leaf` values
  (`num`/`str`/`bool` mirroring the `isinstance(·, int | float | Quantity)`
  test used by `linterp_dicts`, where Python `bool` counts as numeric);
* the external `pint` unit registry (`unit(...)`) is passed in as an
  opaque function parameter `u : Leaf → ℝ`, matching the spec's treatment
  of the unit system as an assumed-correct collaborator;
* the external coefficient catalogs (resource JSON/CSV files that are not
  part of the repository sources) are passed in as parameters.
-/

set_option maxHeartbeats 1000000

noncomputable section

/-- Python exception classes raised (explicitly or implicitly) by the
embedded code. -/
inductive PyError where
  | valueError (msg : String)
  | keyError (msg : String)
  | typeError (msg : String)
  | indexError (msg : String)
  | nameError (msg : String)
  | zeroDivisionError
  | notImplementedError (msg : String)
  | recursionError (msg : String)
deriving DecidableEq

/-- numpy `sign`: `1` for positives, `-1` for negatives, `0` at zero. -/
def sgn (x : ℝ) : ℝ := if 0 < x then 1 else if x < 0 then -1 else 0

/-- Python float division: raises `ZeroDivisionError` on a zero
denominator, otherwise exact division. -/
def pydiv (a b : ℝ) : Except PyError ℝ :=
  if b = 0 then .error .zeroDivisionError else .ok (a / b)

/-- `utils.linterp`: `y_3 = y_1+(y_2-y_1)/(x_2-x_1)*(x_3-x_1)`.  The
division is Python's, so a zero-width bracket (`x_2 == x_1`) raises. -/
def linterp (x_1 y_1 x_2 y_2 x_3 : ℝ) : Except PyError ℝ := do
  let slope ← pydiv (y_2 - y_1) (x_2 - x_1)
  .ok (y_1 + slope * (x_3 - x_1))

/-- A leaf of a JSON coefficient record: a number, an opaque string, or a
boolean (which Python's `isinstance(·, int)` treats as numeric). -/
inductive Leaf where
  | num (v : ℝ)
  | str (s : String)
  | bool (b : Bool)

/-- Innermost coefficient record: coefficient name to leaf value. -/
abbrev Dict1 := List (String × Leaf)

/-- A "dictionary of dictionaries" as consumed by `linterp_dicts`. -/
abbrev Dict2 := List (String × Dict1)

/-- Python `dict` read access returning `None`-style absence. -/
def findD {α : Type} (d : List (String × α)) (k : String) : Option α :=
  (d.find? (fun p => p.1 == k)).map (fun p => p.2)

/-- Python `dict[key]`: raises `KeyError` when the key is absent. -/
def lookupD {α : Type} (d : List (String × α)) (k : String) : Except PyError α :=
  match findD d k with
  | some v => .ok v
  | none => .error (.keyError k)

/-- The numeric reading of a leaf, mirroring
`isinstance(value, int | float | Quantity)` (Python `bool` is an `int`). -/
def toNumOpt : Leaf → Option ℝ
  | .num v => some v
  | .bool b => some (if b then 1 else 0)
  | .str _ => none

/-- Inner loop of `utils.linterp_dicts`: one sub-dictionary of `dict_1`,
interpolating numeric leaves against `dict_2[key_1][key_2]` and copying
all other leaves from `dict_1`. -/
def linterpDict1 (x_1 x_2 x_3 : ℝ) (dict_2 : Dict2) (key_1 : String) :
    Dict1 → Except PyError Dict1
  | [] => .ok []
  | (key_2, v) :: rest => do
    let v3 ← (match toNumOpt v with
      | some y_1 => do
        let inner_2 ← lookupD dict_2 key_1
        let v2 ← lookupD inner_2 key_2
        match toNumOpt v2 with
        | some y_2 => do
          let y ← linterp x_1 y_1 x_2 y_2 x_3
          Except.ok (Leaf.num y)
        | none => Except.error (.typeError "unsupported operand type for -")
      | none => Except.ok v)
    let rest3 ← linterpDict1 x_1 x_2 x_3 dict_2 key_1 rest
    .ok ((key_2, v3) :: rest3)

/-- Outer loop of `utils.linterp_dicts` over the keys of `dict_1`. -/
def linterpDicts (x_1 x_2 x_3 : ℝ) (dict_2 : Dict2) :
    Dict2 → Except PyError Dict2
  | [] => .ok []
  | (key_1, inner_1) :: rest => do
    let inner_3 ← linterpDict1 x_1 x_2 x_3 dict_2 key_1 inner_1
    let rest3 ← linterpDicts x_1 x_2 x_3 dict_2 rest
    .ok ((key_1, inner_3) :: rest3)

/-- `utils.linterp_dicts` with the source's argument order. -/
def linterp_dicts (x_1 : ℝ) (dict_1 : Dict2) (x_2 : ℝ) (dict_2 : Dict2)
    (x_3 : ℝ) : Except PyError Dict2 :=
  linterpDicts x_1 x_2 x_3 dict_2 dict_1

/-- Compatibility of the two records: every numeric leaf of `dict_1` has a
numeric partner at the same key path in `dict_2` (a consequence of the
spec's "structurally identical" requirement, and exactly what the code
needs to run without a `KeyError`/`TypeError`). -/
def numCompat1 (dict_2 : Dict2) (key_1 : String) (inner : Dict1) : Bool :=
  inner.all fun p =>
    match toNumOpt p.2 with
    | none => true
    | some _ =>
      match findD dict_2 key_1 with
      | none => false
      | some inner_2 =>
        match findD inner_2 p.1 with
        | some l2 => (toNumOpt l2).isSome
        | none => false

/-- Top-level record compatibility (see `numCompat1`). -/
def numCompat (dict_1 dict_2 : Dict2) : Bool :=
  dict_1.all fun p => numCompat1 dict_2 p.1 p.2

/-- No boolean leaves.  The spec's data model (§3) has only numeric,
unit-tagged and opaque leaves, so the records quantified over in the
interpolation claims are boolean-free. -/
def boolFree1 (d : Dict1) : Bool :=
  d.all fun p => match p.2 with | .bool _ => false | _ => true

/-- No boolean leaves anywhere in a nested record. -/
def boolFree (d : Dict2) : Bool := d.all fun p => boolFree1 p.2

/-- Closed form of one interpolated leaf, used to state what
`linterp_dicts` returns on compatible input. -/
def interpSpecLeaf (x_1 x_2 x_3 : ℝ) (dict_2 : Dict2) (key_1 key_2 : String)
    (v : Leaf) : Leaf :=
  match toNumOpt v with
  | none => v
  | some y_1 =>
    match findD dict_2 key_1 with
    | none => v
    | some inner_2 =>
      match findD inner_2 key_2 with
      | none => v
      | some l2 =>
        match toNumOpt l2 with
        | none => v
        | some y_2 => .num (y_1 + (y_2 - y_1) / (x_2 - x_1) * (x_3 - x_1))

/-- Closed form of the whole interpolated record. -/
def interpSpec (x_1 : ℝ) (dict_1 : Dict2) (x_2 : ℝ) (dict_2 : Dict2)
    (x_3 : ℝ) : Dict2 :=
  dict_1.map fun p =>
    (p.1, p.2.map fun q => (q.1, interpSpecLeaf x_1 x_2 x_3 dict_2 p.1 q.1 q.2))

/-- One leaf of the record the spec says is returned at `x_3 = x_2`:
numeric leaves from `dict_2`, all other leaves from `dict_1`. -/
def takeNumLeaf (dict_2 : Dict2) (key_1 key_2 : String) (v : Leaf) : Leaf :=
  match toNumOpt v with
  | none => v
  | some _ =>
    match findD dict_2 key_1 with
    | none => v
    | some inner_2 =>
      match findD inner_2 key_2 with
      | none => v
      | some l2 => match toNumOpt l2 with | none => v | some _ => l2

/-- Record with numeric leaves taken from `dict_2` and everything else
from `dict_1` (the spec's description of interpolation at the upper
bound). -/
def takeNum (dict_1 dict_2 : Dict2) : Dict2 :=
  dict_1.map fun p =>
    (p.1, p.2.map fun q => (q.1, takeNumLeaf dict_2 p.1 q.1 q.2))

/-- The string-valued (opaque) leaves of a nested record, with their key
paths. -/
def strLeaves (d : Dict2) : List (String × List (String × String)) :=
  d.map fun p =>
    (p.1, p.2.filterMap fun q =>
      match q.2 with | .str s => some (q.1, s) | _ => none)

/-- The spec's error taxonomy (§7), `ConfigurationError` arm: missing or
contradictory construction input — "ridge axis required but absent,
unsupported building type, unsupported coefficient kind". -/
def specConfigurationError : PyError → Prop
  | .valueError m =>
    m = "ridge_axis not set" ∨
    (∃ s, m = "Unsupported building type: " ++ s) ∨
    (∃ s, m = "Unsupported kind: " ++ s)
  | _ => False

/-- The spec's error taxonomy (§7), `DomainError` arm: input outside the
procedure's valid range — "z outside supported elevation band, roof angle
exceeding a tabulated ceiling, canopy ratio >1, interpolation with
zero-width bracket". -/
def specDomainError : PyError → Prop
  | .valueError m =>
    m = "z is outside of the bounds supported by ASCE 7-22" ∨
    m = "Roof slope greater than 45 degrees" ∨
    m = "Roof slope is greater than 45 degrees" ∨
    m = "Canopy is higher than mean eave height"
  | .zeroDivisionError => True
  | _ => False

/-- Construction configuration for `MainWindServer`.  `__init__` merges
keyword arguments over file values with
`kwargs.get(attribute, file_vals.get(attribute))`; a field that is in
neither source is silently set to `None`, modelled as `none`. -/
structure MainConfig where
  building_type : Option String := none
  roof_type : Option String := none
  roof_angle : Option ℝ := none
  ridge_axis : Option String := none
  L_x : Option ℝ := none
  L_y : Option ℝ := none
  h : Option ℝ := none
  G_x : Option ℝ := none
  G_y : Option ℝ := none
  GC_pi : Option ℝ := none
  K_d : Option ℝ := none
  K_zt : Option ℝ := none
  K_e : Option ℝ := none
  V : Option ℝ := none
  z_g : Option ℝ := none
  alpha : Option ℝ := none
  q_h : Option ℝ := none
  q_p : Option ℝ := none

/-- The kwargs-over-file-values merge performed by the `setattr` loop. -/
def mergeMain (kw fv : MainConfig) : MainConfig where
  building_type := kw.building_type <|> fv.building_type
  roof_type := kw.roof_type <|> fv.roof_type
  roof_angle := kw.roof_angle <|> fv.roof_angle
  ridge_axis := kw.ridge_axis <|> fv.ridge_axis
  L_x := kw.L_x <|> fv.L_x
  L_y := kw.L_y <|> fv.L_y
  h := kw.h <|> fv.h
  G_x := kw.G_x <|> fv.G_x
  G_y := kw.G_y <|> fv.G_y
  GC_pi := kw.GC_pi <|> fv.GC_pi
  K_d := kw.K_d <|> fv.K_d
  K_zt := kw.K_zt <|> fv.K_zt
  K_e := kw.K_e <|> fv.K_e
  V := kw.V <|> fv.V
  z_g := kw.z_g <|> fv.z_g
  alpha := kw.alpha <|> fv.alpha
  q_h := kw.q_h <|> fv.q_h
  q_p := kw.q_p <|> fv.q_p

/-- One building type's entry in `ASCE_MainWindCoefficients.json` (an
external resource file), shaped after the accesses the code performs:
`parapet`, `wall["L/B=…"]`, `roof_parallel["h/L=…"]`,
`roof_normal["h/L=…"][str(angle)]`. -/
structure MainTypeCoefs where
  parapet : Dict2
  wall : List (String × Dict2)
  roof_parallel : List (String × Dict2)
  roof_normal : List (String × List (String × Dict2))

/-- Post-construction state of a `MainWindServer`.  Fields the `setattr`
loop may leave as `None` stay `Option`-typed; `GC_pi` is total because
construction already applied `abs` to it.  `G` is the `self.G`
dictionary `{"x": G_x, "y": G_y}`. -/
structure MainWindServer where
  coefs : List (String × List (String × Dict2))
  G : List (String × Option ℝ)
  GC_pi : ℝ
  K_d : Option ℝ
  K_zt : Option ℝ
  K_e : Option ℝ
  V : Option ℝ
  z_g : Option ℝ
  alpha : Option ℝ
  q_h : Option ℝ
  q_p : Option ℝ
  h : Option ℝ

/-- Using a `None` attribute in arithmetic or a comparison raises
`TypeError` in Python. -/
def reqNum (o : Option ℝ) : Except PyError ℝ :=
  match o with
  | some v => .ok v
  | none => .error (.typeError "unsupported operand type: NoneType")

/-- `abs(self.GC_pi)`: Python `abs(None)` raises `TypeError`. -/
def pyAbsO (o : Option ℝ) : Except PyError ℝ :=
  match o with
  | some v => .ok |v|
  | none => .error (.typeError "bad operand type for abs()")

/-- `calc_K_z` (ASCE 7-22 Table 26.10-1 footnote 1): guard on the
supported elevation band, then
`2.41*(max(min(z, z_g), 15 ft)/z_g)**(2/alpha)`.  Lengths are in feet. -/
def calc_K_z (z z_g alpha : ℝ) : Except PyError ℝ :=
  if z < 0 ∨ 3280 < z then
    .error (.valueError "z is outside of the bounds supported by ASCE 7-22")
  else
    .ok (2.41 * (max (min z z_g) 15 / z_g) ^ (2 / alpha))

/-- `calc_q_z` (ASCE 7-22 Eq. 26.10-1): `0.00256*K_z*K_zt*K_e*V**2`,
with `V` in mph and the result in psf. -/
def calc_q_z (K_z K_zt K_e V : ℝ) : ℝ :=
  0.00256 * K_z * K_zt * K_e * V ^ 2

/-- Python tuple indexing including negative indices;
out-of-range raises `IndexError`. -/
def pyIdx (l : List ℕ) (i : ℤ) : Except PyError ℕ :=
  let j : ℤ := if i < 0 then (l.length : ℤ) + i else i
  if 0 ≤ j ∧ j < (l.length : ℤ) then .ok (l.getD j.toNat 0)
  else .error (.indexError "tuple index out of range")

/-- The tabulated roof angles for the wind-normal-to-ridge table. -/
def roofAngles : List ℕ := [10, 15, 20, 25, 30, 35, 45, 60, 80]

/-- Wall-coefficient resolution over the aspect ratio `L/B` with
breakpoints `{1, 2, 4}` (`__init__`, wall loop). -/
def resolveWall (tc : MainTypeCoefs) (L B : ℝ) : Except PyError Dict2 := do
  let x_3 ← pydiv L B
  if x_3 ≤ 1 then lookupD tc.wall "L/B=1"
  else if x_3 ≤ 2 then do
    let d1 ← lookupD tc.wall "L/B=1"
    let d2 ← lookupD tc.wall "L/B=2"
    linterp_dicts 1 d1 2 d2 x_3
  else if x_3 ≤ 4 then do
    let d1 ← lookupD tc.wall "L/B=2"
    let d2 ← lookupD tc.wall "L/B=4"
    linterp_dicts 2 d1 4 d2 x_3
  else lookupD tc.wall "L/B=4"

/-- Roof table for flat roofs / wind parallel to the ridge, interpolated
over `h/L` with breakpoints `{0.5, 1}`. -/
def resolveRoofParallel (tc : MainTypeCoefs) (x_3 : ℝ) : Except PyError Dict2 :=
  if x_3 ≤ 0.5 then lookupD tc.roof_parallel "h/L=0.5"
  else if x_3 ≤ 1 then do
    let d1 ← lookupD tc.roof_parallel "h/L=0.5"
    let d2 ← lookupD tc.roof_parallel "h/L=1"
    linterp_dicts 0.5 d1 1 d2 x_3
  else lookupD tc.roof_parallel "h/L=1"

/-- One `h/L` ratio of the normal-to-ridge table, interpolated between the
two bracketing tabulated angles. -/
def roofNormalRatio (tc : MainTypeCoefs) (a0 a1 : ℕ) (θ : ℝ) (ratio : String) :
    Except PyError Dict2 := do
  let rt ← lookupD tc.roof_normal ratio
  let t0 ← lookupD rt (toString a0)
  let t1 ← lookupD rt (toString a1)
  linterp_dicts (a0 : ℝ) t0 (a1 : ℝ) t1 θ

/-- Normal-to-ridge roof table: bracket the roof angle by a linear scan of
`roofAngles` (Python's `sum(roof_angle > x for x)` then tuple indexing,
including the negative index at exactly 10°), interpolate each `h/L`
dictionary across the angle bracket, then across `h/L` breakpoints
`{0.25, 0.5, 1}`. -/
def resolveRoofNormal (tc : MainTypeCoefs) (θ x_3 : ℝ) : Except PyError Dict2 := do
  let angle_index : ℕ := (roofAngles.filter fun x => decide ((x : ℝ) < θ)).length
  let a0 ← pyIdx roofAngles ((angle_index : ℤ) - 1)
  let a1 ← pyIdx roofAngles (angle_index : ℤ)
  let d025 ← roofNormalRatio tc a0 a1 θ "h/L=0.25"
  let d05 ← roofNormalRatio tc a0 a1 θ "h/L=0.5"
  let d1 ← roofNormalRatio tc a0 a1 θ "h/L=1"
  if x_3 ≤ 0.25 then .ok d025
  else if x_3 ≤ 0.5 then linterp_dicts 0.25 d025 0.5 d05 x_3
  else if x_3 ≤ 1 then linterp_dicts 0.5 d05 1 d1 x_3
  else .ok d1

/-- Roof-coefficient resolution for one axis (`__init__`, roof loop):
parallel table when the wind is along the ridge or the angle is below 10°,
normal table when a ridge axis is set, `ValueError` otherwise.  The
`roof_angle` comparison is only reached when `ridge_axis == axis` is
false, matching Python's short-circuit `or`. -/
def resolveRoof (tc : MainTypeCoefs) (ridge_axis : Option String)
    (roof_angle : Option ℝ) (h L : ℝ) (axis : String) : Except PyError Dict2 := do
  let x_3 ← pydiv h L
  if ridge_axis = some axis then resolveRoofParallel tc x_3
  else do
    let θ ← reqNum roof_angle
    if θ < 10 then resolveRoofParallel tc x_3
    else
      match ridge_axis with
      | some _ => resolveRoofNormal tc θ x_3
      | none => .error (.valueError "ridge_axis not set")

/-- `MainWindServer.__init__`.  After the attribute merge the code takes
`abs(GC_pi)` (the first failure point when `GC_pi` is missing), indexes
the catalog by `building_type` (a `KeyError` when that is missing or not
a catalog key), and resolves wall then roof coefficients per axis.
Python defers missing-scalar failures (`q_h`, `G_x`, …) to query time;
the embedding stores those fields still `Option`-typed, so no extra
failure is introduced here. -/
def MainWindServer.init (catalog : List (String × MainTypeCoefs))
    (kw fv : MainConfig) : Except PyError MainWindServer := do
  let cfg := mergeMain kw fv
  let gcpi ← pyAbsO cfg.GC_pi
  let bt ← (match cfg.building_type with
    | some b => Except.ok b
    | none => Except.error (.keyError "None"))
  let tc ← lookupD catalog bt
  if bt = "low-rise" ∨ bt = "mid-rise" then do
    let Lx ← reqNum cfg.L_x
    let Ly ← reqNum cfg.L_y
    let wx ← resolveWall tc Lx Ly
    let wy ← resolveWall tc Ly Lx
    let hv ← reqNum cfg.h
    let rx ← resolveRoof tc cfg.ridge_axis cfg.roof_angle hv Lx "x"
    let ry ← resolveRoof tc cfg.ridge_axis cfg.roof_angle hv Ly "y"
    Except.ok {
      coefs := [("x", [("parapet", tc.parapet), ("wall", wx), ("roof", rx)]),
                ("y", [("parapet", tc.parapet), ("wall", wy), ("roof", ry)])],
      G := [("x", cfg.G_x), ("y", cfg.G_y)],
      GC_pi := gcpi, K_d := cfg.K_d, K_zt := cfg.K_zt, K_e := cfg.K_e,
      V := cfg.V, z_g := cfg.z_g, alpha := cfg.alpha,
      q_h := cfg.q_h, q_p := cfg.q_p, h := cfg.h }
  else if bt = "open" then
    Except.error (.notImplementedError "open buildings have not yet been implemented")
  else
    Except.error (.valueError ("Unsupported building type: " ++ bt))

/-- A `get_load` location argument: a tag string or a length. -/
inductive Loc where
  | str (s : String)
  | len (d : ℝ)

/-- Numeric-location resolution in `MainWindServer.get_load`: roofs bin
the distance from the windward edge (comparisons against `self.h` raise
`TypeError` when `h` is `None`), a numeric wall location means
"windward", and any other element keeps the raw length (which later fails
the dictionary lookup).  Also records the raw length `d` for the
`q_z`-at-elevation branch. -/
def resolveLoc (h : Option ℝ) (element : String) (location : Loc) :
    Except PyError (Loc × Option ℝ) :=
  match location with
  | .str s => .ok (.str s, none)
  | .len d =>
    if element = "roof" then do
      let hv ← reqNum h
      Except.ok (.str (if d ≤ hv / 2 then "d<=h/2"
        else if d ≤ hv then "d<=h"
        else if d ≤ 2 * hv then "d<=2h"
        else "d>2h"), some d)
    else if element = "wall" then .ok (.str "windward", some d)
    else .ok (.len d, some d)

/-- Dictionary lookup keyed by a location: a non-string key is absent from
the string-keyed coefficient dictionaries, so it raises `KeyError`. -/
def lookupLoc (d : Dict2) (l : Loc) : Except PyError Dict1 :=
  match l with
  | .str s => lookupD d s
  | .len _ => .error (.keyError "location")

/-- Reading a leaf as a number; a string leaf in an arithmetic position
raises `TypeError`. -/
def leafNum (l : Leaf) : Except PyError ℝ :=
  match toNumOpt l with
  | some v => .ok v
  | none => .error (.typeError "unsupported operand type: str")

/-- `coefs[k]` followed by numeric use. -/
def getNumK (coefs : Dict1) (k : String) : Except PyError ℝ := do
  leafNum (← lookupD coefs k)

/-- The `match coefs.get("q_z", "q_h")` velocity-pressure-source dispatch
of `MainWindServer.get_load`.  The `"q_z"` arm recomputes the pressure at
the literal elevation `d` (a `NameError` when the location was a tag, so
`d` was never assigned); an unrecognized selector leaves `q_z` unbound,
which Python reports as a `NameError` at first use. -/
def resolveQsrc (srv : MainWindServer) (coefs : Dict1) (dO : Option ℝ) :
    Except PyError (Option ℝ) :=
  match (findD coefs "q_z").getD (.str "q_h") with
  | .str "q_h" => .ok srv.q_h
  | .str "q_z" => do
    let d ← (match dO with
      | some d => Except.ok d
      | none => Except.error (.nameError "d"))
    let zg ← reqNum srv.z_g
    let al ← reqNum srv.alpha
    let K_z ← calc_K_z d zg al
    let kzt ← reqNum srv.K_zt
    let ke ← reqNum srv.K_e
    let v ← reqNum srv.V
    Except.ok (some (calc_q_z K_z kzt ke v))
  | .str "q_p" => .ok srv.q_p
  | _ => .error (.nameError "q_z")

/-- The MWFRS flooring step: `max(abs(p), p_min)*sign(p)`. -/
def mainFloor (p_min p : ℝ) : ℝ := max |p| p_min * sgn p

/-- The unfloored MWFRS pressure for one coefficient: parapets use
`q_z*K_d*C_p`; every other element uses
`q_z*K_d*G*C_p + q_h*K_d*GC_pi*sign(C_p)`. -/
def mainP (element : String) (q_z K_d G q_h GC_pi C_p : ℝ) : ℝ :=
  if element = "parapet" then q_z * K_d * C_p
  else q_z * K_d * G * C_p + q_h * K_d * GC_pi * sgn C_p

/-- `MainWindServer.get_load`.  `u` is the external `pint` registry used
to parse the `p_min` strings stored in the catalog. -/
def MainWindServer.get_load (u : Leaf → ℝ) (srv : MainWindServer)
    (axis element : String) (location : Loc) : Except PyError (List ℝ) := do
  let ld ← resolveLoc srv.h element location
  let elems ← lookupD srv.coefs axis
  let locsD ← lookupD elems element
  let coefs ← lookupLoc locsD ld.1
  let pmLeaf ← lookupD coefs "p_min"
  let p_min := u pmLeaf
  let q_zO ← resolveQsrc srv coefs ld.2
  let c1 ← getNumK coefs "c1"
  let c2 ← getNumK coefs "c2"
  let q_z ← reqNum q_zO
  let kd ← reqNum srv.K_d
  if element = "parapet" then
    Except.ok [mainFloor p_min (q_z * kd * c1), mainFloor p_min (q_z * kd * c2)]
  else do
    let g ← reqNum (← lookupD srv.G axis)
    let qh ← reqNum srv.q_h
    Except.ok [mainFloor p_min (q_z * kd * g * c1 + qh * kd * srv.GC_pi * sgn c1),
               mainFloor p_min (q_z * kd * g * c2 + qh * kd * srv.GC_pi * sgn c2)]

/-- Construction configuration for `CandCServer` (same merge pattern as
`MainConfig`). -/
structure CandCConfig where
  building_type : Option String := none
  roof_type : Option String := none
  roof_angle : Option ℝ := none
  a : Option ℝ := none
  G_x : Option ℝ := none
  G_y : Option ℝ := none
  GC_pi : Option ℝ := none
  h_c : Option ℝ := none
  h_e : Option ℝ := none
  K_d : Option ℝ := none
  q_h : Option ℝ := none
  q_p : Option ℝ := none

/-- The kwargs-over-file-values merge for `CandCServer.__init__`. -/
def mergeCandC (kw fv : CandCConfig) : CandCConfig where
  building_type := kw.building_type <|> fv.building_type
  roof_type := kw.roof_type <|> fv.roof_type
  roof_angle := kw.roof_angle <|> fv.roof_angle
  a := kw.a <|> fv.a
  G_x := kw.G_x <|> fv.G_x
  G_y := kw.G_y <|> fv.G_y
  GC_pi := kw.GC_pi <|> fv.GC_pi
  h_c := kw.h_c <|> fv.h_c
  h_e := kw.h_e <|> fv.h_e
  K_d := kw.K_d <|> fv.K_d
  q_h := kw.q_h <|> fv.q_h
  q_p := kw.q_p <|> fv.q_p

/-- Post-construction state of a `CandCServer`: the resolved zone table,
the `self.G` dictionary, the `abs`-ed internal pressure coefficient, and
the cached scalars (still `Option`-typed as the `setattr` loop leaves
them). -/
structure CandCServer where
  coefs : Dict2
  G : List (String × Option ℝ)
  GC_pi : ℝ
  K_d : Option ℝ
  q_h : Option ℝ
  q_p : Option ℝ
  a : Option ℝ

/-- Python truthiness of an optional quantity: `None` and zero-magnitude
values are falsy. -/
def pyTruthyO (o : Option ℝ) : Bool :=
  match o with
  | none => false
  | some v => decide (v ≠ 0)

/-- Python truthiness of an optional leaf (`coefs.get("use_q_p")`):
absence and `None` are falsy, numbers by magnitude, strings by
non-emptiness. -/
def pyTruthyLeafO (o : Option Leaf) : Bool :=
  match o with
  | none => false
  | some (.bool b) => b
  | some (.num v) => decide (v ≠ 0)
  | some (.str s) => decide (s ≠ "")

/-- Python `dict.update`: existing keys keep their position and take the
new value; new keys are appended in order. -/
def dictUpdate (old new : Dict2) : Dict2 :=
  (old.map fun p =>
    match findD new p.1 with
    | some v => (p.1, v)
    | none => p) ++
  new.filter fun q => (findD old q.1).isNone

/-- `CandCServer.__init__`.  The catalog parameter stands for
`ASCE_CandCCoefficients.json` (an external resource file): building type
to table name to zone dictionary.  Failure order follows the source:
`abs(GC_pi)` first, then the catalog index by building type, then the
per-branch table selection. -/
def CandCServer.init (catalog : List (String × List (String × Dict2)))
    (kw fv : CandCConfig) : Except PyError CandCServer := do
  let cfg := mergeCandC kw fv
  let gcpi ← pyAbsO cfg.GC_pi
  let bt ← (match cfg.building_type with
    | some b => Except.ok b
    | none => Except.error (.keyError "None"))
  let tcs ← lookupD catalog bt
  let coefs ← (
    if bt = "low-rise" then do
      let walls ← lookupD tcs "walls"
      let θ ← reqNum cfg.roof_angle
      let roofT ← (
        if θ ≤ 7 then lookupD tcs "flat"
        else if θ ≤ 20 then do
          let rt ← (match cfg.roof_type with
            | some r => Except.ok r
            | none => Except.error (.typeError "can only concatenate str"))
          lookupD tcs ("low_" ++ rt)
        else if θ ≤ 27 then do
          let rt ← (match cfg.roof_type with
            | some r => Except.ok r
            | none => Except.error (.typeError "can only concatenate str"))
          lookupD tcs ("mid_" ++ rt)
        else if θ ≤ 45 then do
          let rt ← (match cfg.roof_type with
            | some r => Except.ok r
            | none => Except.error (.typeError "can only concatenate str"))
          lookupD tcs ("high_" ++ rt)
        else Except.error (.valueError "Roof slope greater than 45 degrees"))
      let base := dictUpdate walls roofT
      if pyTruthyO cfg.h_c && pyTruthyO cfg.h_e then do
        let hc ← reqNum cfg.h_c
        let he ← reqNum cfg.h_e
        let ratio ← pydiv hc he
        let ct ← (
          if ratio ≤ 0.5 then lookupD tcs "low_canopy"
          else if ratio < 0.9 then lookupD tcs "mid_canopy"
          else if ratio ≤ 1 then lookupD tcs "high_canopy"
          else Except.error (.valueError "Canopy is higher than mean eave height"))
        Except.ok (dictUpdate base ct)
      else Except.ok base
    else if bt = "mid-rise" then
      Except.error (.notImplementedError "mid-rise buildings have not yet been implemented")
    else if bt = "open" then do
      let θ ← reqNum cfg.roof_angle
      let sl ← (
        if θ ≤ 7.5 then Except.ok (("0", (0 : ℝ)), ("7.5", (7.5 : ℝ)))
        else if θ ≤ 15 then Except.ok (("7.5", (7.5 : ℝ)), ("15", (15 : ℝ)))
        else if θ ≤ 30 then Except.ok (("15", (15 : ℝ)), ("30", (30 : ℝ)))
        else if θ ≤ 45 then Except.ok (("30", (30 : ℝ)), ("45", (45 : ℝ)))
        else Except.error (.valueError "Roof slope is greater than 45 degrees"))
      let rt ← (match cfg.roof_type with
        | some r => Except.ok r
        | none => Except.error (.typeError "can only concatenate str"))
      let d0 ← lookupD tcs (rt ++ "_" ++ sl.1.1)
      let d1 ← lookupD tcs (rt ++ "_" ++ sl.2.1)
      linterp_dicts sl.1.2 d0 sl.2.2 d1 θ
    else Except.error (.valueError ("Unsupported building type: " ++ bt)))
  Except.ok {
    coefs := coefs, G := [("x", cfg.G_x), ("y", cfg.G_y)],
    GC_pi := gcpi, K_d := cfg.K_d, q_h := cfg.q_h, q_p := cfg.q_p, a := cfg.a }

/-- Internal-pressure-coefficient resolution in `CandCServer.get_load`:
an explicit argument is `abs`-ed; otherwise the zone record's `GC_pi`
is used as stored (no `abs`), falling back to the server's value. -/
def resolveGCpi (srv : CandCServer) (coefs : Dict1) (arg : Option ℝ) :
    Except PyError ℝ :=
  match arg with
  | some g => .ok |g|
  | none =>
    match findD coefs "GC_pi" with
    | some lf => leafNum lf
    | none => .ok srv.GC_pi

/-- Minimum-pressure resolution in `CandCServer.get_load`: an explicit
argument is `abs`-ed; otherwise `unit(coefs.get("p_min", "16 psf"))`. -/
def resolvePmin (u : Leaf → ℝ) (coefs : Dict1) (arg : Option ℝ) : ℝ :=
  match arg with
  | some pm => |pm|
  | none => u ((findD coefs "p_min").getD (.str "16 psf"))

/-- Velocity-pressure resolution in `CandCServer.get_load`: the explicit
`q_z` argument is tested for truthiness (not presence), falling back to
the parapet-height pressure when the zone record flags `use_q_p`, else
the roof-height pressure. -/
def resolveQz (srv : CandCServer) (coefs : Dict1) (q_z : Option ℝ) : Option ℝ :=
  if !pyTruthyO q_z && pyTruthyLeafO (findD coefs "use_q_p") then srv.q_p
  else if !pyTruthyO q_z then srv.q_h
  else q_z

/-- `self.G.get(G_method, max(self.G.values()))` followed by numeric use:
an axis key reads that gust factor, anything else takes the maximum of
the stored values (`TypeError` if any is `None`, `ValueError` if the
dictionary is empty). -/
def getG (srv : CandCServer) (G_method : String) : Except PyError ℝ :=
  match findD srv.G G_method with
  | some gO => reqNum gO
  | none => do
    let vs ← srv.G.mapM fun p => reqNum p.2
    match vs.max? with
    | some m => Except.ok m
    | none => Except.error (.valueError "max() arg is an empty sequence")

/-- `coefs[k]` expected to name a zone (composite sub-zone reference); a
non-string leaf cannot match any string zone key, surfacing as a
`KeyError` in the recursive call. -/
def leafStrK (coefs : Dict1) (k : String) : Except PyError String := do
  let lf ← lookupD coefs k
  match lf with
  | .str s => .ok s
  | _ => .error (.keyError k)

/-- Rendering of `coefs.get("kind")` for the "Unsupported kind" message
(numeric leaves are abstracted, which no claim observes). -/
def kindStr : Option Leaf → String
  | none => "None"
  | some (.str s) => s
  | some (.num _) => "float"
  | some (.bool b) => cond b "True" "False"

/-- The C&C flooring step: `max(abs(p), abs(p_min))*sign(p)`. -/
def candcFloor (p_min p : ℝ) : ℝ := max |p| |p_min| * sgn p

/-- `CandCServer.get_load`.  The first argument after `u` is recursion
fuel standing in for Python's call stack: composite zones recurse, and
Python's recursion limit raises `RecursionError` on catalogs with cyclic
composites.  `u` is the external `pint` registry used for
`unit(coefs.get("p_min", "16 psf"))`. -/
def CandCServer.get_load (u : Leaf → ℝ) :
    ℕ → CandCServer → String → ℝ → String → Option ℝ → Option ℝ → Option ℝ →
    Except PyError ℝ
  | 0, _, _, _, _, _, _, _ =>
    .error (.recursionError "maximum recursion depth exceeded")
  | fuel + 1, srv, zone, area, G_method, q_z, GC_pi, p_min => do
    let coefs ← lookupD srv.coefs zone
    let gcpi ← resolveGCpi srv coefs GC_pi
    let pm := resolvePmin u coefs p_min
    let q_zO := resolveQz srv coefs q_z
    let p ← (match findD coefs "kind" with
      | some (.str "single_log") => do
        let c1 ← getNumK coefs "c1"
        let c2 ← getNumK coefs "c2"
        let lo ← getNumK coefs "low_limit"
        let hi ← getNumK coefs "high_limit"
        let GC_p := c1 + c2 * Real.logb 10 (min (max area lo) hi)
        let q_zv ← reqNum q_zO
        let kd ← reqNum srv.K_d
        Except.ok (q_zv * kd * (GC_p + gcpi * sgn GC_p))
      | some (.str "double_log") => do
        let bp ← getNumK coefs "break_point"
        let GC_p ← (
          if area ≤ bp then do
            let c1 ← getNumK coefs "e1c1"
            let c2 ← getNumK coefs "e1c2"
            let lo ← getNumK coefs "low_limit"
            Except.ok (c1 + c2 * Real.logb 10 (max area lo))
          else do
            let c1 ← getNumK coefs "e2c1"
            let c2 ← getNumK coefs "e2c2"
            let hi ← getNumK coefs "high_limit"
            Except.ok (c1 + c2 * Real.logb 10 (min area hi)))
        let q_zv ← reqNum q_zO
        let kd ← reqNum srv.K_d
        Except.ok (q_zv * kd * (GC_p + gcpi * sgn GC_p))
      | some (.str "constants") => do
        let av ← reqNum srv.a
        let C_n ← (
          if area ≤ av ^ 2 then getNumK coefs "c1"
          else if area ≤ 4 * av ^ 2 then getNumK coefs "c2"
          else getNumK coefs "c3")
        let g ← getG srv G_method
        let q_zv ← reqNum q_zO
        let kd ← reqNum srv.K_d
        Except.ok (q_zv * kd * g * C_n)
      | some (.str "composite") => do
        let zp ← leafStrK coefs "positive_zone"
        let pp ← CandCServer.get_load u fuel srv zp area "max" q_zO (some gcpi) (some 0)
        let zn ← leafStrK coefs "negative_zone"
        let pn ← CandCServer.get_load u fuel srv zn area "max" q_zO (some gcpi) (some 0)
        Except.ok (pp - pn)
      | k => Except.error (.valueError ("Unsupported kind: " ++ kindStr k)))
    Except.ok (candcFloor pm p)

/-- One exposure category's row of `ASCE_Table_26-11-1.csv` (an external
resource file), restricted to the columns `calc_wind_server_inputs`
reads. -/
structure Table26_11_1 where
  z_g : ℝ
  alpha : ℝ
  z_min : ℝ
  c : ℝ
  l : ℝ
  epsilon_bar : ℝ

/-- The C&C zone dimension:
`a = max(min(0.1*L_x, 0.1*L_y, 0.4*h), 0.04*min(L_x, L_y), 3*unit.ft)`. -/
def calc_a (L_x L_y h : ℝ) : ℝ :=
  max (max (min (min (0.1 * L_x) (0.1 * L_y)) (0.4 * h)) (0.04 * min L_x L_y)) 3

/-- The rigid-building gust-effect factor of ASCE 7-22 §26.11.4 for one
axis, evaluated with the cross-axis dimension `B` (`G_x` uses `L_y`,
`G_y` uses `L_x`), exactly as in `calc_wind_server_inputs`. -/
def calc_G (t : Table26_11_1) (B h : ℝ) : ℝ :=
  let z_bar := max (0.6 * h) t.z_min
  let L_z := t.l * (z_bar / 33) ^ t.epsilon_bar
  let I_z := t.c * (33 / z_bar) ^ ((1 : ℝ) / 6)
  let Q := Real.sqrt (1 / (1 + 0.63 * ((B + h) / L_z) ^ (0.63 : ℝ)))
  0.925 * ((1 + 1.7 * 3.4 * I_z * Q) / (1 + 1.7 * 3.4 * I_z))

/-- The outputs of `calc_wind_server_inputs` that are computed (the
remaining entries of the returned dictionary are verbatim copies of the
inputs). -/
structure ServerInputs where
  K_e : ℝ
  q_h : ℝ
  q_p : Option ℝ
  G_x : ℝ
  G_y : ℝ
  a : ℝ

/-- `calc_wind_server_inputs` (ASCE 7-22 Chapter 26 aggregator): ground
elevation factor, velocity pressure at roof height (and parapet height if
`h_p` is truthy), per-axis gust-effect factors, and the C&C zone
dimension `a`.  The `Table26_11_1` parameter stands for the row of the
external exposure-constant CSV selected by the exposure category. -/
def calc_wind_server_inputs (t : Table26_11_1) (V L_x L_y h K_zt Z_e : ℝ)
    (h_p : Option ℝ) : Except PyError ServerInputs := do
  let K_e := Real.exp (-0.0000362 * Z_e)
  let K_h ← calc_K_z h t.z_g t.alpha
  let q_h := calc_q_z K_h K_zt K_e V
  let q_p ← (
    if pyTruthyO h_p then do
      let hp ← reqNum h_p
      let K_p ← calc_K_z hp t.z_g t.alpha
      Except.ok (some (calc_q_z K_p K_zt K_e V))
    else Except.ok none)
  let G_x := calc_G t L_y h
  let G_y := calc_G t L_x h
  let a := calc_a L_x L_y h
  Except.ok { K_e := K_e, q_h := q_h, q_p := q_p, G_x := G_x, G_y := G_y, a := a }

/-- A concrete stand-in for the external `pint` registry in witnesses:
every catalog `p_min` leaf it is applied to reads as 16 psf. -/
def uConst : Leaf → ℝ := fun _ => 16

/-- Concrete parapet location table used by witness servers. -/
def parapetW : Dict2 :=
  [("windward", [("p_min", Leaf.str "16 psf"), ("c1", Leaf.num (3/2)),
                 ("c2", Leaf.num (-1))])]

/-- Concrete wall location table used by witness servers. -/
def wallW : Dict2 :=
  [("leeward", [("p_min", Leaf.str "16 psf"), ("c1", Leaf.num (-1/2)),
                ("c2", Leaf.num (-1/4))])]

/-- A concrete constructed `MainWindServer` used by witnesses. -/
def srvMainW : MainWindServer where
  coefs := [("x", [("parapet", parapetW), ("wall", wallW), ("roof", [])]),
            ("y", [("parapet", parapetW), ("wall", wallW), ("roof", [])])]
  G := [("x", some (4/5)), ("y", some (4/5))]
  GC_pi := 9/50
  K_d := some (17/20)
  K_zt := some 1
  K_e := some 1
  V := some 115
  z_g := some 900
  alpha := some (19/2)
  q_h := some 10
  q_p := some 12
  h := some 15

/-- A concrete low-rise entry of the MWFRS catalog used by witnesses. -/
def tcLowW : MainTypeCoefs where
  parapet := parapetW
  wall := [("L/B=1", wallW)]
  roof_parallel := []
  roof_normal := []

/-- A concrete MWFRS catalog used by witnesses. -/
def catMainW : List (String × MainTypeCoefs) := [("low-rise", tcLowW)]

/-- Keyword arguments for the `C4` witness: low-rise, 15° roof, no ridge
axis. -/
def kwC4W : MainConfig where
  building_type := some "low-rise"
  roof_angle := some 15
  L_x := some 40
  L_y := some 40
  h := some 15
  GC_pi := some (9/50)

/-- Keyword arguments with every required field except `GC_pi`
(`MainWindServer`). -/
def kwC8MainW : MainConfig where
  building_type := some "low-rise"
  roof_type := some "flat"
  roof_angle := some 0
  ridge_axis := some "x"
  L_x := some 40
  L_y := some 40
  h := some 15
  G_x := some (4/5)
  G_y := some (4/5)
  K_d := some (17/20)
  K_zt := some 1
  K_e := some 1
  V := some 115
  z_g := some 900
  alpha := some (19/2)
  q_h := some 10

/-- Keyword arguments with every required field except `GC_pi`
(`CandCServer`). -/
def kwC8CandCW : CandCConfig where
  building_type := some "low-rise"
  roof_type := some "gable"
  roof_angle := some 10
  a := some 4
  G_x := some (4/5)
  G_y := some (4/5)
  K_d := some (17/20)
  q_h := some 10

/-- Concrete composite zone record referencing zones `"A"` and `"B"`. -/
def compW : Dict1 :=
  [("kind", Leaf.str "composite"), ("positive_zone", Leaf.str "A"),
   ("negative_zone", Leaf.str "B")]

/-- Concrete `single_log` zone record carrying its own zone-level
`GC_pi` of 0.5. -/
def zoneAW : Dict1 :=
  [("kind", Leaf.str "single_log"), ("c1", Leaf.num 1),
   ("c2", Leaf.num 0), ("low_limit", Leaf.num 1),
   ("high_limit", Leaf.num 10), ("GC_pi", Leaf.num (1/2))]

/-- Concrete `single_log` zone record with no zone-level `GC_pi`. -/
def zoneBW : Dict1 :=
  [("kind", Leaf.str "single_log"), ("c1", Leaf.num (1/2)),
   ("c2", Leaf.num 0), ("low_limit", Leaf.num 1),
   ("high_limit", Leaf.num 10)]

/-- A concrete constructed `CandCServer` whose `"comp"` zone is a
composite of the `single_log` zones `"A"` (which carries its own
zone-level `GC_pi` of 0.5) and `"B"`. -/
def srvCandCW : CandCServer where
  coefs := [("comp", compW), ("A", zoneAW), ("B", zoneBW)]
  G := [("x", some 1), ("y", some 1)]
  GC_pi := 1
  K_d := some 1
  q_h := some 10
  q_p := none
  a := some 1

/-- Concrete lower-bound record for the interpolation witness. -/
def dictLoW : Dict2 := [("k", [("c", Leaf.num 2), ("tag", Leaf.str "t")])]

/-- Concrete upper-bound record for the interpolation witness. -/
def dictHiW : Dict2 := [("k", [("c", Leaf.num 4), ("tag", Leaf.str "u")])]

/-- A concrete positive exposure-constant row used by the aggregator
witness (any row with positive `z_g`, `c`, `l` works; the computed `a`
does not depend on it). -/
def tableW : Table26_11_1 where
  z_g := 900
  alpha := 19/2
  z_min := 15
  c := 1/5
  l := 500
  epsilon_bar := 1/5

/-! ## Shared helper lemmas -/

@[simp]
theorem exceptBindOk {α β : Type} (a : α) (f : α → Except PyError β) :
    (Except.ok a : Except PyError α) >>= f = f a := rfl

@[simp]
theorem exceptBindErr {α β : Type} (e : PyError) (f : α → Except PyError β) :
    (Except.error e : Except PyError α) >>= f = Except.error e := rfl

theorem sgnPos {x : ℝ} (h : 0 < x) : sgn x = 1 := by
  simp [sgn, h]

theorem sgnNeg {x : ℝ} (h : x < 0) : sgn x = -1 := by
  simp [sgn, h, asymm h]

theorem sgnZero : sgn (0 : ℝ) = 0 := by
  simp [sgn]

/-! ## Interpolation: structure lemmas for `linterp_dicts` -/

theorem linterpDict1Spec (x_1 x_2 x_3 : ℝ) (hx : x_1 ≠ x_2) (dict_2 : Dict2)
    (key_1 : String) (inner : Dict1)
    (h : numCompat1 dict_2 key_1 inner = true) :
    linterpDict1 x_1 x_2 x_3 dict_2 key_1 inner =
      .ok (inner.map fun q =>
        (q.1, interpSpecLeaf x_1 x_2 x_3 dict_2 key_1 q.1 q.2)) := by
  induction inner with
  | nil => simp [linterpDict1]
  | cons p rest ih =>
    obtain ⟨k2, v⟩ := p
    rw [numCompat1, List.all_cons, Bool.and_eq_true] at h
    obtain ⟨h1, h2⟩ := h
    have hrest := ih h2
    cases hv : toNumOpt v with
    | none =>
      simp only [hv] at h1
      simp [linterpDict1, hv, hrest, interpSpecLeaf]
    | some y1 =>
      simp only [hv] at h1
      cases hf : findD dict_2 key_1 with
      | none => simp [hf] at h1
      | some i2 =>
        cases hg : findD i2 k2 with
        | none => simp [hf, hg] at h1
        | some l2 =>
          cases hn : toNumOpt l2 with
          | none => simp [hf, hg, hn] at h1
          | some y2 =>
            have hden : x_2 - x_1 ≠ 0 := sub_ne_zero.mpr (Ne.symm hx)
            simp [linterpDict1, hv, hf, hg, hn, lookupD, linterp, pydiv,
              hden, hrest, interpSpecLeaf]

theorem linterpDictsSpec (x_1 x_2 x_3 : ℝ) (hx : x_1 ≠ x_2)
    (dict_1 dict_2 : Dict2) (h : numCompat dict_1 dict_2 = true) :
    linterpDicts x_1 x_2 x_3 dict_2 dict_1 =
      .ok (interpSpec x_1 dict_1 x_2 dict_2 x_3) := by
  induction dict_1 with
  | nil => simp [linterpDicts, interpSpec]
  | cons p rest ih =>
    obtain ⟨k1, i1⟩ := p
    rw [numCompat, List.all_cons, Bool.and_eq_true] at h
    obtain ⟨h1, h2⟩ := h
    have hrest := ih h2
    simp [linterpDicts, linterpDict1Spec x_1 x_2 x_3 hx dict_2 k1 i1 h1,
      hrest, interpSpec]

theorem linterpDictsRun (x_1 x_2 x_3 : ℝ) (hx : x_1 ≠ x_2)
    (dict_1 dict_2 : Dict2) (h : numCompat dict_1 dict_2 = true) :
    linterp_dicts x_1 dict_1 x_2 dict_2 x_3 =
      .ok (interpSpec x_1 dict_1 x_2 dict_2 x_3) := by
  rw [linterp_dicts]
  exact linterpDictsSpec x_1 x_2 x_3 hx dict_1 dict_2 h

theorem interpSpecLeafLeft (x_1 x_2 : ℝ) (dict_2 : Dict2) (k1 k2 : String)
    (v : Leaf) (hb : ∀ b, v ≠ Leaf.bool b) :
    interpSpecLeaf x_1 x_2 x_1 dict_2 k1 k2 v = v := by
  unfold interpSpecLeaf
  cases v with
  | str s => rfl
  | bool b => exact absurd rfl (hb b)
  | num y =>
    dsimp only [toNumOpt]
    cases findD dict_2 k1 with
    | none => rfl
    | some i2 =>
      dsimp only
      cases findD i2 k2 with
      | none => rfl
      | some l2 =>
        dsimp only
        cases l2 with
        | str s => rfl
        | num y2 =>
          dsimp only [toNumOpt]
          rw [sub_self, mul_zero, add_zero]
        | bool b =>
          dsimp only [toNumOpt]
          rw [sub_self, mul_zero, add_zero]

theorem mapInterpLeft (x_1 x_2 : ℝ) (dict_2 : Dict2) (k1 : String)
    (i1 : Dict1) (hb : boolFree1 i1 = true) :
    (i1.map fun q => (q.1, interpSpecLeaf x_1 x_2 x_1 dict_2 k1 q.1 q.2)) = i1 := by
  induction i1 with
  | nil => rfl
  | cons q rest ih =>
    obtain ⟨k2, v⟩ := q
    rw [boolFree1, List.all_cons, Bool.and_eq_true] at hb
    obtain ⟨hv, hq⟩ := hb
    have hvb : ∀ b, v ≠ Leaf.bool b := by
      intro b hbb
      rw [hbb] at hv
      simp at hv
    have hrest : boolFree1 rest = true := hq
    simp [interpSpecLeafLeft x_1 x_2 dict_2 k1 k2 v hvb, ih hrest]

theorem interpSpecLeft (x_1 x_2 : ℝ) (dict_1 dict_2 : Dict2)
    (hb : boolFree dict_1 = true) :
    interpSpec x_1 dict_1 x_2 dict_2 x_1 = dict_1 := by
  induction dict_1 with
  | nil => rfl
  | cons p rest ih =>
    obtain ⟨k1, i1⟩ := p
    rw [boolFree, List.all_cons, Bool.and_eq_true] at hb
    obtain ⟨hb1, hb2⟩ := hb
    have hrest := ih hb2
    rw [interpSpec] at hrest ⊢
    simp only [List.map_cons, List.cons.injEq]
    refine ⟨?_, hrest⟩
    have hb1i : boolFree1 i1 = true := hb1
    simp [mapInterpLeft x_1 x_2 dict_2 k1 i1 hb1i]

theorem boolFreeFindD {d : Dict2} {k : String} {i : Dict1}
    (hb : boolFree d = true) (hf : findD d k = some i) :
    boolFree1 i = true := by
  rw [findD] at hf
  obtain ⟨p, hp, hp2⟩ := Option.map_eq_some'.mp hf
  have hmem := List.mem_of_find?_eq_some hp
  rw [boolFree, List.all_eq_true] at hb
  have := hb p hmem
  rwa [hp2] at this

theorem boolFree1FindD {i : Dict1} {k : String} {l : Leaf}
    (hb : boolFree1 i = true) (hf : findD i k = some l) :
    ∀ b, l ≠ Leaf.bool b := by
  intro b hbb
  rw [findD] at hf
  obtain ⟨p, hp, hp2⟩ := Option.map_eq_some'.mp hf
  have hmem := List.mem_of_find?_eq_some hp
  rw [boolFree1, List.all_eq_true] at hb
  have hv := hb p hmem
  rw [hp2, hbb] at hv
  simp at hv

theorem interpSpecLeafRight (x_1 x_2 : ℝ) (hx : x_1 ≠ x_2) (dict_2 : Dict2)
    (k1 k2 : String) (v : Leaf) (hb2 : boolFree dict_2 = true) :
    interpSpecLeaf x_1 x_2 x_2 dict_2 k1 k2 v = takeNumLeaf dict_2 k1 k2 v := by
  have hden : x_2 - x_1 ≠ 0 := sub_ne_zero.mpr (Ne.symm hx)
  unfold interpSpecLeaf takeNumLeaf
  cases toNumOpt v with
  | none => rfl
  | some y1 =>
    dsimp only
    cases hf : findD dict_2 k1 with
    | none => rfl
    | some i2 =>
      dsimp only
      cases hg : findD i2 k2 with
      | none => rfl
      | some l2 =>
        dsimp only
        have hfree := boolFree1FindD (boolFreeFindD hb2 hf) hg
        cases l2 with
        | bool b => exact absurd rfl (hfree b)
        | str s => rfl
        | num y =>
          dsimp only [toNumOpt]
          rw [div_mul_cancel₀ _ hden]
          congr 1
          ring

theorem interpSpecRight (x_1 x_2 : ℝ) (hx : x_1 ≠ x_2)
    (dict_1 dict_2 : Dict2) (hb2 : boolFree dict_2 = true) :
    interpSpec x_1 dict_1 x_2 dict_2 x_2 = takeNum dict_1 dict_2 := by
  rw [interpSpec, takeNum]
  refine List.map_congr_left fun p _ => ?_
  refine congrArg (fun l => (p.1, l)) ?_
  refine List.map_congr_left fun q _ => ?_
  rw [interpSpecLeafRight x_1 x_2 hx dict_2 p.1 q.1 q.2 hb2]

theorem interpSpecLeafStrCase (x_1 x_2 x_3 : ℝ) (dict_2 : Dict2)
    (k1 k2 : String) (s : String) :
    interpSpecLeaf x_1 x_2 x_3 dict_2 k1 k2 (Leaf.str s) = Leaf.str s := by
  simp [interpSpecLeaf, toNumOpt]

theorem interpSpecLeafNotStr (x_1 x_2 x_3 : ℝ) (dict_2 : Dict2)
    (k1 k2 : String) (v : Leaf) (hv : ∀ t, v ≠ Leaf.str t) :
    ∀ s, interpSpecLeaf x_1 x_2 x_3 dict_2 k1 k2 v ≠ Leaf.str s := by
  intro s
  unfold interpSpecLeaf
  cases v with
  | str t => exact absurd rfl (hv t)
  | num y =>
    simp only [toNumOpt]
    repeat' split
    all_goals simp
  | bool b =>
    simp only [toNumOpt]
    repeat' split
    all_goals simp

theorem matchStrNone {X : Leaf} (h : ∀ s, X ≠ Leaf.str s) (k : String) :
    (match X with | Leaf.str s => some (k, s) | _ => none) =
      (none : Option (String × String)) := by
  cases X with
  | str s => exact absurd rfl (h s)
  | num y => rfl
  | bool b => rfl

theorem strLeavesInterpSpec (x_1 x_2 x_3 : ℝ) (dict_1 dict_2 : Dict2) :
    strLeaves (interpSpec x_1 dict_1 x_2 dict_2 x_3) = strLeaves dict_1 := by
  rw [strLeaves, strLeaves, interpSpec, List.map_map]
  refine List.map_congr_left fun p _ => ?_
  refine congrArg (fun l => (p.1, l)) ?_
  dsimp only
  rw [List.filterMap_map]
  refine List.filterMap_congr fun q _ => ?_
  dsimp only [Function.comp]
  cases hv : q.2 with
  | str s => rw [interpSpecLeafStrCase]
  | bool b =>
    rcases hres : interpSpecLeaf x_1 x_2 x_3 dict_2 p.1 q.1 (Leaf.bool b)
      with y' | s' | b'
    · rfl
    · exact absurd hres (interpSpecLeafNotStr x_1 x_2 x_3 dict_2 p.1 q.1
        (Leaf.bool b) (fun t ht => Leaf.noConfusion ht) s')
    · rfl
  | num y =>
    rcases hres : interpSpecLeaf x_1 x_2 x_3 dict_2 p.1 q.1 (Leaf.num y)
      with y' | s' | b'
    · rfl
    · exact absurd hres (interpSpecLeafNotStr x_1 x_2 x_3 dict_2 p.1 q.1
        (Leaf.num y) (fun t ht => Leaf.noConfusion ht) s')
    · rfl

/-! ## Claims C5 and C6 -/

/-- Claim C5: for `x1 ≠ x2` and structurally compatible nested records,
structural interpolation is exact at the bounds — at `x3 = x1` it returns
`dict_1` itself (every numeric leaf takes `R1`'s value), at `x3 = x2` it
returns `dict_1` with every numeric leaf replaced by `dict_2`'s value —
and at every `x3` it succeeds with the non-numeric (opaque string) leaves
copied verbatim from `dict_1`. -/
theorem C5_linterp_dicts_bounds (x_1 x_2 : ℝ) (dict_1 dict_2 : Dict2)
    (hx : x_1 ≠ x_2) (hc : numCompat dict_1 dict_2 = true)
    (hb1 : boolFree dict_1 = true) (hb2 : boolFree dict_2 = true) :
    linterp_dicts x_1 dict_1 x_2 dict_2 x_1 = .ok dict_1 ∧
    linterp_dicts x_1 dict_1 x_2 dict_2 x_2 = .ok (takeNum dict_1 dict_2) ∧
    ∀ x_3, ∃ dict_3, linterp_dicts x_1 dict_1 x_2 dict_2 x_3 = .ok dict_3 ∧
      strLeaves dict_3 = strLeaves dict_1 := by
  refine ⟨?_, ?_, ?_⟩
  · rw [linterpDictsRun x_1 x_2 x_1 hx dict_1 dict_2 hc,
      interpSpecLeft x_1 x_2 dict_1 dict_2 hb1]
  · rw [linterpDictsRun x_1 x_2 x_2 hx dict_1 dict_2 hc,
      interpSpecRight x_1 x_2 hx dict_1 dict_2 hb2]
  · intro x_3
    exact ⟨_, linterpDictsRun x_1 x_2 x_3 hx dict_1 dict_2 hc,
      strLeavesInterpSpec x_1 x_2 x_3 dict_1 dict_2⟩

/-- Witness for C5 at a concrete pair of records. -/
theorem C5_linterp_dicts_bounds_witness :
    linterp_dicts 0 dictLoW 1 dictHiW 0 = .ok dictLoW ∧
    linterp_dicts 0 dictLoW 1 dictHiW 1 = .ok (takeNum dictLoW dictHiW) ∧
    ∀ x_3, ∃ dict_3, linterp_dicts 0 dictLoW 1 dictHiW x_3 = .ok dict_3 ∧
      strLeaves dict_3 = strLeaves dictLoW :=
  C5_linterp_dicts_bounds 0 1 dictLoW dictHiW (by norm_num) rfl rfl rfl

/-- Claim C6: `linterp` called with a zero-width bracket (`x_2 = x_1`)
always fails — with Python's `ZeroDivisionError`, which the spec's §7
taxonomy classifies as a `DomainError` ("interpolation with zero-width
bracket") — and never returns a value, so no infinity or NaN can
propagate silently. -/
theorem C6_linterp_zero_width (x_1 y_1 y_2 x_3 : ℝ) :
    linterp x_1 y_1 x_1 y_2 x_3 = .error PyError.zeroDivisionError ∧
    specDomainError PyError.zeroDivisionError := by
  constructor
  · simp [linterp, pydiv, sub_self]
  · trivial

/-! ## Claim C4 -/

/-- Claim C4: constructing a `MainWindServer` with building type
"low-rise", no ridge axis, and a roof angle of at least 10° (so that the
first axis takes the normal-to-ridge branch) fails with the
`"ridge_axis not set"` error — a `ConfigurationError` in the spec's
taxonomy — and no server value is produced. -/
theorem C4_ridge_axis_required (catalog : List (String × MainTypeCoefs))
    (kw fv : MainConfig) (tc : MainTypeCoefs) (g Lx Ly hv θ : ℝ)
    (wx wy : Dict2)
    (hbt : (mergeMain kw fv).building_type = some "low-rise")
    (hridge : (mergeMain kw fv).ridge_axis = none)
    (hangle : (mergeMain kw fv).roof_angle = some θ)
    (h10 : 10 ≤ θ)
    (hg : (mergeMain kw fv).GC_pi = some g)
    (hLx : (mergeMain kw fv).L_x = some Lx)
    (hLy : (mergeMain kw fv).L_y = some Ly)
    (hh : (mergeMain kw fv).h = some hv)
    (hcat : lookupD catalog "low-rise" = .ok tc)
    (hwx : resolveWall tc Lx Ly = .ok wx)
    (hwy : resolveWall tc Ly Lx = .ok wy)
    (hLx0 : Lx ≠ 0) :
    MainWindServer.init catalog kw fv =
      .error (.valueError "ridge_axis not set") ∧
    specConfigurationError (.valueError "ridge_axis not set") := by
  refine ⟨?_, Or.inl rfl⟩
  have h10' : ¬ (θ < 10) := not_lt.mpr h10
  rw [MainWindServer.init]
  simp [hbt, hridge, hangle, hg, hLx, hLy, hh, hcat, hwx, hwy, pyAbsO,
    reqNum, resolveRoof, pydiv, hLx0, h10']

/-- Witness for C4 at a concrete catalog and configuration. -/
theorem C4_ridge_axis_required_witness :
    MainWindServer.init catMainW kwC4W {} =
      .error (.valueError "ridge_axis not set") ∧
    specConfigurationError (.valueError "ridge_axis not set") :=
  C4_ridge_axis_required catMainW kwC4W {} tcLowW (9/50) 40 40 15 15
    wallW wallW rfl rfl rfl (by norm_num) rfl rfl rfl rfl rfl
    (by simp [resolveWall, pydiv, lookupD, findD, tcLowW])
    (by simp [resolveWall, pydiv, lookupD, findD, tcLowW])
    (by norm_num)

/-! ## Claims C2 and C3 -/

/-- Claim C2: every successful `MainWindServer.get_load` result is
exactly the pair `[max(|p1|,p_min)*sign(p1), max(|p2|,p_min)*sign(p2)]`
(never a single scalar), and on a fully resolvable query the two
unfloored pressures are the `mainP` formula applied to the two signed
coefficients `c1` and `c2` of the resolved location record. -/
theorem C2_get_load_pair :
    (∀ (u : Leaf → ℝ) (srv : MainWindServer) (axis element : String)
        (location : Loc) (res : List ℝ),
      MainWindServer.get_load u srv axis element location = .ok res →
      ∃ pm p1 p2, res = [mainFloor pm p1, mainFloor pm p2]) ∧
    (∀ (u : Leaf → ℝ) (srv : MainWindServer) (axis element : String)
        (location loc : Loc) (dO : Option ℝ)
        (elems : List (String × Dict2)) (locsD : Dict2) (coefs : Dict1)
        (pmLeaf : Leaf) (qz kd g qh c1 c2 : ℝ),
      resolveLoc srv.h element location = .ok (loc, dO) →
      lookupD srv.coefs axis = .ok elems →
      lookupD elems element = .ok locsD →
      lookupLoc locsD loc = .ok coefs →
      lookupD coefs "p_min" = .ok pmLeaf →
      resolveQsrc srv coefs dO = .ok (some qz) →
      getNumK coefs "c1" = .ok c1 →
      getNumK coefs "c2" = .ok c2 →
      srv.K_d = some kd →
      lookupD srv.G axis = .ok (some g) →
      srv.q_h = some qh →
      MainWindServer.get_load u srv axis element location =
        .ok [mainFloor (u pmLeaf) (mainP element qz kd g qh srv.GC_pi c1),
             mainFloor (u pmLeaf) (mainP element qz kd g qh srv.GC_pi c2)]) := by
  constructor
  · intro u srv axis element location res h
    rw [MainWindServer.get_load] at h
    rcases h1 : resolveLoc srv.h element location with e | ld
    · rw [h1] at h; simp at h
    simp only [h1, exceptBindOk] at h
    rcases h2 : lookupD srv.coefs axis with e | elems
    · rw [h2] at h; simp at h
    simp only [h2, exceptBindOk] at h
    rcases h3 : lookupD elems element with e | locsD
    · rw [h3] at h; simp at h
    simp only [h3, exceptBindOk] at h
    rcases h4 : lookupLoc locsD ld.1 with e | coefs
    · rw [h4] at h; simp at h
    simp only [h4, exceptBindOk] at h
    rcases h5 : lookupD coefs "p_min" with e | pmLeaf
    · rw [h5] at h; simp at h
    simp only [h5, exceptBindOk] at h
    rcases h6 : resolveQsrc srv coefs ld.2 with e | qzO
    · rw [h6] at h; simp at h
    simp only [h6, exceptBindOk] at h
    rcases h7 : getNumK coefs "c1" with e | c1
    · rw [h7] at h; simp at h
    simp only [h7, exceptBindOk] at h
    rcases h8 : getNumK coefs "c2" with e | c2
    · rw [h8] at h; simp at h
    simp only [h8, exceptBindOk] at h
    rcases h9 : reqNum qzO with e | qz
    · rw [h9] at h; simp at h
    simp only [h9, exceptBindOk] at h
    rcases h10 : reqNum srv.K_d with e | kd
    · rw [h10] at h; simp at h
    simp only [h10, exceptBindOk] at h
    by_cases he : element = "parapet"
    · rw [if_pos he] at h
      simp only [Except.ok.injEq] at h
      exact ⟨u pmLeaf, qz * kd * c1, qz * kd * c2, h.symm⟩
    · rw [if_neg he] at h
      rcases h11 : lookupD srv.G axis with e | gO
      · rw [h11] at h; simp at h
      simp only [h11, exceptBindOk] at h
      rcases h12 : reqNum gO with e | g
      · rw [h12] at h; simp at h
      simp only [h12, exceptBindOk] at h
      rcases h13 : reqNum srv.q_h with e | qh
      · rw [h13] at h; simp at h
      simp only [h13, exceptBindOk] at h
      simp only [Except.ok.injEq] at h
      exact ⟨u pmLeaf, qz * kd * g * c1 + qh * kd * srv.GC_pi * sgn c1,
        qz * kd * g * c2 + qh * kd * srv.GC_pi * sgn c2, h.symm⟩
  · intro u srv axis element location loc dO elems locsD coefs pmLeaf
      qz kd g qh c1 c2 hld hax hel hlo hpm hq hc1 hc2 hkd hg hqh
    rw [MainWindServer.get_load]
    simp only [hld, hax, hel, hlo, hpm, hq, hc1, hc2, hkd, hg, hqh,
      reqNum, exceptBindOk, mainP]
    by_cases he : element = "parapet"
    · rw [if_pos he, if_pos he, if_pos he]
    · rw [if_neg he, if_neg he, if_neg he]

/-- Witness for C2 on a concrete server and wall query. -/
theorem C2_get_load_pair_witness :
    MainWindServer.get_load uConst srvMainW "x" "wall" (Loc.str "leeward") =
      .ok [mainFloor 16 (mainP "wall" 10 (17/20) (4/5) 10 (9/50) (-1/2)),
           mainFloor 16 (mainP "wall" 10 (17/20) (4/5) 10 (9/50) (-1/4))] :=
  C2_get_load_pair.2 uConst srvMainW "x" "wall" (Loc.str "leeward")
    (Loc.str "leeward") none _ _ _ (Leaf.str "16 psf") 10 (17/20) (4/5) 10
    (-1/2) (-1/4) rfl rfl rfl rfl rfl rfl rfl rfl rfl rfl rfl

/-- Claim C3: for a parapet element, each of the two returned pressures
is exactly `q_z*K_d*C_p` before flooring: no gust-effect factor and no
internal-pressure term appears in either value. -/
theorem C3_parapet_no_internal (u : Leaf → ℝ) (srv : MainWindServer)
    (axis : String) (location loc : Loc) (dO : Option ℝ)
    (elems : List (String × Dict2)) (locsD : Dict2) (coefs : Dict1)
    (pmLeaf : Leaf) (qz kd c1 c2 : ℝ)
    (hld : resolveLoc srv.h "parapet" location = .ok (loc, dO))
    (hax : lookupD srv.coefs axis = .ok elems)
    (hel : lookupD elems "parapet" = .ok locsD)
    (hlo : lookupLoc locsD loc = .ok coefs)
    (hpm : lookupD coefs "p_min" = .ok pmLeaf)
    (hq : resolveQsrc srv coefs dO = .ok (some qz))
    (hc1 : getNumK coefs "c1" = .ok c1)
    (hc2 : getNumK coefs "c2" = .ok c2)
    (hkd : srv.K_d = some kd) :
    MainWindServer.get_load u srv axis "parapet" location =
      .ok [mainFloor (u pmLeaf) (qz * kd * c1),
           mainFloor (u pmLeaf) (qz * kd * c2)] := by
  rw [MainWindServer.get_load]
  simp [hld, hax, hel, hlo, hpm, hq, hc1, hc2, hkd, reqNum]

/-- Witness for C3 on a concrete server and parapet query. -/
theorem C3_parapet_no_internal_witness :
    MainWindServer.get_load uConst srvMainW "x" "parapet"
      (Loc.str "windward") =
      .ok [mainFloor 16 (10 * (17/20) * (3/2)),
           mainFloor 16 (10 * (17/20) * (-1))] :=
  C3_parapet_no_internal uConst srvMainW "x" (Loc.str "windward")
    (Loc.str "windward") none _ _ _ (Leaf.str "16 psf") 10 (17/20) (3/2) (-1)
    rfl rfl rfl rfl rfl rfl rfl rfl rfl

/-! ## Claims C10 and C9 -/

/-- Claim C10: `CandCServer.get_load` tests the explicit `q_z` override
for truthiness, not presence: a zero-magnitude explicit `q_z` behaves
exactly like no override at all — the resolution falls back to the cached
parapet-height pressure when the zone flags `use_q_p`, else the
roof-height pressure — and the whole call result is identical to the
`none` call. -/
theorem C10_qz_truthiness :
    (∀ (srv : CandCServer) (coefs : Dict1),
      resolveQz srv coefs (some 0) =
        if pyTruthyLeafO (findD coefs "use_q_p") then srv.q_p else srv.q_h) ∧
    (∀ (u : Leaf → ℝ) (fuel : ℕ) (srv : CandCServer) (zone : String)
        (area : ℝ) (G_method : String) (GC_pi p_min : Option ℝ),
      CandCServer.get_load u fuel srv zone area G_method (some 0) GC_pi p_min =
        CandCServer.get_load u fuel srv zone area G_method none GC_pi p_min) := by
  have hq : ∀ (srv : CandCServer) (coefs : Dict1),
      resolveQz srv coefs (some 0) = resolveQz srv coefs none := by
    intro srv coefs
    simp [resolveQz, pyTruthyO]
  constructor
  · intro srv coefs
    rw [hq]
    simp [resolveQz, pyTruthyO]
  · intro u fuel srv zone area G_method GC_pi p_min
    cases fuel with
    | zero => rfl
    | succ n =>
      simp only [CandCServer.get_load, hq srv]

/-- Claim C9: the sign of the supplied internal pressure coefficient is
always discarded — both server constructors store `abs(GC_pi)`, and the
per-call `GC_pi` override of `CandCServer.get_load` is `abs`-ed — so all
outputs agree for inputs `c` and `-c`. -/
theorem C9_gcpi_sign_discarded :
    (∀ (catalog : List (String × MainTypeCoefs)) (kw fv : MainConfig) (c : ℝ),
      MainWindServer.init catalog {kw with GC_pi := some c} fv =
        MainWindServer.init catalog {kw with GC_pi := some (-c)} fv) ∧
    (∀ (catalog : List (String × List (String × Dict2)))
        (kw fv : CandCConfig) (c : ℝ),
      CandCServer.init catalog {kw with GC_pi := some c} fv =
        CandCServer.init catalog {kw with GC_pi := some (-c)} fv) ∧
    (∀ (u : Leaf → ℝ) (fuel : ℕ) (srv : CandCServer) (zone : String)
        (area : ℝ) (G_method : String) (q_z p_min : Option ℝ) (c : ℝ),
      CandCServer.get_load u fuel srv zone area G_method q_z (some c) p_min =
        CandCServer.get_load u fuel srv zone area G_method q_z (some (-c)) p_min) := by
  refine ⟨?_, ?_, ?_⟩
  · intro catalog kw fv c
    simp only [MainWindServer.init, mergeMain, pyAbsO, Option.some_orElse,
      abs_neg]
  · intro catalog kw fv c
    simp only [CandCServer.init, mergeCandC, pyAbsO, Option.some_orElse,
      abs_neg]
  · intro u fuel srv zone area G_method q_z p_min c
    have hg : ∀ coefs, resolveGCpi srv coefs (some c) =
        resolveGCpi srv coefs (some (-c)) := by
      intro coefs
      simp [resolveGCpi, abs_neg]
    cases fuel with
    | zero => rfl
    | succ n =>
      simp only [CandCServer.get_load, hg]

/-! ## Claim C1 -/

/-- Amended composite behaviour: one step of `CandCServer.get_load` on a
composite zone evaluates the two named sub-zones with the floor
suppressed (`p_min = 0`) *and* with the composite call's resolved
velocity pressure and (absolute) internal pressure coefficient passed
down, with the default `"max"` gust-factor selector; only the final
difference is magnitude-floored at the composite call's resolved `p_min`
and re-signed. -/
theorem C1_composite_amended (u : Leaf → ℝ) (fuel : ℕ) (srv : CandCServer)
    (zone : String) (area : ℝ) (G_method : String) (q_z GC_pi p_min : Option ℝ)
    (coefs : Dict1) (g : ℝ) (zp zn : String)
    (hz : lookupD srv.coefs zone = .ok coefs)
    (hk : findD coefs "kind" = some (Leaf.str "composite"))
    (hg : resolveGCpi srv coefs GC_pi = .ok g)
    (hp : findD coefs "positive_zone" = some (Leaf.str zp))
    (hn : findD coefs "negative_zone" = some (Leaf.str zn)) :
    CandCServer.get_load u (fuel + 1) srv zone area G_method q_z GC_pi p_min =
      (do
        let pp ← CandCServer.get_load u fuel srv zp area "max"
          (resolveQz srv coefs q_z) (some g) (some 0)
        let pn ← CandCServer.get_load u fuel srv zn area "max"
          (resolveQz srv coefs q_z) (some g) (some 0)
        Except.ok (candcFloor (resolvePmin u coefs p_min) (pp - pn))) := by
  have hps : leafStrK coefs "positive_zone" = .ok zp := by
    simp [leafStrK, lookupD, hp]
  have hns : leafStrK coefs "negative_zone" = .ok zn := by
    simp [leafStrK, lookupD, hn]
  simp only [CandCServer.get_load, hz, hg, hk, hps, hns, exceptBindOk]
  rcases E1 : CandCServer.get_load u fuel srv zp area "max"
      (resolveQz srv coefs q_z) (some g) (some 0) with e | pp
  · simp [E1]
  · simp only [E1, exceptBindOk]
    rcases E2 : CandCServer.get_load u fuel srv zn area "max"
        (resolveQz srv coefs q_z) (some g) (some 0) with e | pn
    · simp [E2]
    · simp [E2]

/-- Witness for the amended composite claim at a concrete server. -/
theorem C1_composite_amended_witness :
    CandCServer.get_load uConst 5 srvCandCW "comp" 2 "max" none none none =
      (do
        let pp ← CandCServer.get_load uConst 4 srvCandCW "A" 2 "max"
          (resolveQz srvCandCW compW none) (some 1) (some 0)
        let pn ← CandCServer.get_load uConst 4 srvCandCW "B" 2 "max"
          (resolveQz srvCandCW compW none) (some 1) (some 0)
        Except.ok (candcFloor (resolvePmin uConst compW none) (pp - pn))) :=
  C1_composite_amended uConst 4 srvCandCW "comp" 2 "max" none none none
    compW 1 "A" "B" rfl rfl rfl rfl rfl

theorem pyTruthyTenW : pyTruthyO (some (10 : ℝ)) = true :=
  decide_eq_true (by norm_num)

theorem sgnOneW : sgn (1 : ℝ) = 1 := sgnPos (by norm_num)

theorem candcFloorZero {p : ℝ} (h : 0 < p) : candcFloor 0 p = p := by
  rw [candcFloor, abs_zero, abs_of_pos h, sgnPos h, mul_one]
  exact max_eq_left h.le

theorem candcFloorUp {pm p : ℝ} (h1 : 0 < p) (h2 : p ≤ pm) (h3 : 0 ≤ pm) :
    candcFloor pm p = pm := by
  rw [candcFloor, abs_of_pos h1, abs_of_nonneg h3, sgnPos h1, mul_one]
  exact max_eq_right h2

theorem candcFloorOfZero (pm : ℝ) : candcFloor pm 0 = 0 := by
  rw [candcFloor, sgnZero, mul_zero]

/-- Concrete run: zone `"A"` as invoked from the composite (explicit
`q_z = 10`, `GC_pi = 1`, floor suppressed) gives `10*(1 + 1) = 20`. -/
theorem runAInnerW (fuel : ℕ) :
    CandCServer.get_load uConst (fuel + 1) srvCandCW "A" 2 "max"
      (some 10) (some 1) (some 0) = .ok 20 := by
  simp [CandCServer.get_load, srvCandCW, zoneAW, compW, zoneBW, lookupD,
    findD, resolveGCpi, resolvePmin, resolveQz, pyTruthyTenW, getNumK,
    leafNum, toNumOpt, reqNum]
  norm_num [sgnOneW, candcFloorZero]

/-- Concrete run: zone `"B"` as invoked from the composite gives
`10*(1/2 + 1) = 15`. -/
theorem runBInnerW (fuel : ℕ) :
    CandCServer.get_load uConst (fuel + 1) srvCandCW "B" 2 "max"
      (some 10) (some 1) (some 0) = .ok 15 := by
  simp [CandCServer.get_load, srvCandCW, zoneAW, compW, zoneBW, lookupD,
    findD, resolveGCpi, resolvePmin, resolveQz, pyTruthyTenW, getNumK,
    leafNum, toNumOpt, reqNum]
  norm_num [sgn, candcFloorZero]

/-- Concrete run: zone `"A"` called plainly with only the floor
suppressed uses its own zone-level `GC_pi = 0.5`, giving
`10*(1 + 1/2) = 15`. -/
theorem runAPlainW (fuel : ℕ) :
    CandCServer.get_load uConst (fuel + 1) srvCandCW "A" 2 "max"
      none none (some 0) = .ok 15 := by
  simp [CandCServer.get_load, srvCandCW, zoneAW, compW, zoneBW, lookupD,
    findD, resolveGCpi, resolvePmin, resolveQz, pyTruthyO, pyTruthyLeafO,
    getNumK, leafNum, toNumOpt, reqNum]
  norm_num [sgnOneW, candcFloorZero]

/-- Concrete run: zone `"B"` called plainly with only the floor
suppressed uses the server's `GC_pi = 1`, giving `10*(1/2 + 1) = 15`. -/
theorem runBPlainW (fuel : ℕ) :
    CandCServer.get_load uConst (fuel + 1) srvCandCW "B" 2 "max"
      none none (some 0) = .ok 15 := by
  simp [CandCServer.get_load, srvCandCW, zoneAW, compW, zoneBW, lookupD,
    findD, resolveGCpi, resolvePmin, resolveQz, pyTruthyO, pyTruthyLeafO,
    getNumK, leafNum, toNumOpt, reqNum]
  norm_num [sgn, candcFloorZero]

/-- Concrete run: the composite zone itself returns `16` (the difference
`20 - 15 = 5` floored at the resolved default `p_min` of 16 psf). -/
theorem runCompW (fuel : ℕ) :
    CandCServer.get_load uConst (fuel + 2) srvCandCW "comp" 2 "max"
      none none none = .ok 16 := by
  have hA := runAInnerW fuel
  have hB := runBInnerW fuel
  simp only [CandCServer.get_load, exceptBindOk]
  simp only [srvCandCW, compW, lookupD, findD, List.find?]
  simp [CandCServer.get_load, srvCandCW, zoneAW, compW, zoneBW, lookupD,
    findD, resolveGCpi, resolvePmin, resolveQz, pyTruthyO, pyTruthyLeafO,
    leafStrK, getNumK, leafNum, toNumOpt, reqNum, uConst]
  norm_num [sgn, candcFloorZero, candcFloorUp]

/-- Counterexample to C1 as stated: at the concrete composite server the
code returns 16, while the claimed expression — the difference of the two
plain sub-zone calls with only `p_min = 0`, floored at the composite's
resolved 16 psf — returns 0, because the composite path passes its own
resolved `GC_pi` down while a plain call lets zone `"A"` use its
zone-level `GC_pi`. -/
theorem C1_composite_counterexample :
    CandCServer.get_load uConst 5 srvCandCW "comp" 2 "max" none none none =
      .ok 16 ∧
    (do
      let pp ← CandCServer.get_load uConst 5 srvCandCW "A" 2 "max"
        none none (some 0)
      let pn ← CandCServer.get_load uConst 5 srvCandCW "B" 2 "max"
        none none (some 0)
      Except.ok (candcFloor 16 (pp - pn))) = .ok 0 ∧
    (Except.ok (16 : ℝ) : Except PyError ℝ) ≠ .ok 0 := by
  refine ⟨runCompW 3, ?_, fun h => absurd (Except.ok.inj h) (by norm_num)⟩
  rw [show (5 : ℕ) = 4 + 1 from rfl, runAPlainW 4, runBPlainW 4,
    exceptBindOk, exceptBindOk]
  norm_num [candcFloorOfZero]

/-! ## Claim C8 -/

/-- Amended missing-field behaviour: when `GC_pi` is supplied neither as
a keyword argument nor in the loaded file, both constructors proceed to
`self.GC_pi = abs(self.GC_pi)` and die there with a `TypeError` on the
`None` value — a null-dereference-style failure, not a
`ConfigurationError` naming the missing key. -/
theorem C8_missing_field_amended (catM : List (String × MainTypeCoefs))
    (catC : List (String × List (String × Dict2)))
    (kw fv : MainConfig) (kwc fvc : CandCConfig)
    (hm : (mergeMain kw fv).GC_pi = none)
    (hc : (mergeCandC kwc fvc).GC_pi = none) :
    MainWindServer.init catM kw fv =
      .error (.typeError "bad operand type for abs()") ∧
    CandCServer.init catC kwc fvc =
      .error (.typeError "bad operand type for abs()") ∧
    ¬ specConfigurationError (.typeError "bad operand type for abs()") := by
  refine ⟨?_, ?_, fun h => h⟩
  · rw [MainWindServer.init]
    simp [hm, pyAbsO]
  · rw [CandCServer.init]
    simp [hc, pyAbsO]

/-- Witness for the amended C8 at concrete configurations missing only
`GC_pi`. -/
theorem C8_missing_field_amended_witness :
    MainWindServer.init [] kwC8MainW {} =
      .error (.typeError "bad operand type for abs()") ∧
    CandCServer.init [] kwC8CandCW {} =
      .error (.typeError "bad operand type for abs()") ∧
    ¬ specConfigurationError (.typeError "bad operand type for abs()") :=
  C8_missing_field_amended [] [] kwC8MainW {} kwC8CandCW {} rfl rfl

/-- Counterexample to C8 as stated: an otherwise-complete construction
missing only `GC_pi` fails with a `TypeError` (from `abs(None)`), which
the spec's taxonomy does not classify as a `ConfigurationError`; no
error message identifies the missing key. -/
theorem C8_missing_field_counterexample :
    MainWindServer.init catMainW kwC8MainW {} =
      .error (.typeError "bad operand type for abs()") ∧
    ¬ specConfigurationError (.typeError "bad operand type for abs()") := by
  refine ⟨?_, fun h => h⟩
  rw [MainWindServer.init]
  simp [mergeMain, kwC8MainW, pyAbsO]

/-! ## Claim C7 -/

theorem calcAClamp (L_x L_y h : ℝ) :
    calc_a L_x L_y h =
      max (min (min (0.1 * L_x) (0.1 * L_y)) (0.4 * h))
        (max (0.04 * min L_x L_y) 3) := by
  rw [calc_a, max_assoc]

theorem calcAScenario : calc_a 60 40 15 = 4 := by
  rw [calc_a]
  norm_num [min_def, max_def]

theorem calcQzPos {K_z K_zt K_e V : ℝ} (hK : 0 < K_z) (hzt : 0 < K_zt)
    (hKe : 0 < K_e) (hV : 0 < V) : 0 < calc_q_z K_z K_zt K_e V := by
  rw [calc_q_z]
  exact mul_pos (mul_pos (mul_pos (mul_pos (by norm_num) hK) hzt) hKe)
    (pow_pos hV 2)

theorem calcGPos (t : Table26_11_1) (B h : ℝ) (hc : 0 < t.c) (hl : 0 < t.l)
    (hB : 0 < B + h) (hh : 0 < h) : 0 < calc_G t B h := by
  simp only [calc_G]
  have hzb : (0 : ℝ) < max (0.6 * h) t.z_min :=
    (mul_pos (by norm_num : (0:ℝ) < 0.6) hh).trans_le (le_max_left _ _)
  have hLz : 0 < t.l * (max (0.6 * h) t.z_min / 33) ^ t.epsilon_bar :=
    mul_pos hl (Real.rpow_pos_of_pos (div_pos hzb (by norm_num)) _)
  have hIz : 0 < t.c * (33 / max (0.6 * h) t.z_min) ^ ((1:ℝ)/6) :=
    mul_pos hc (Real.rpow_pos_of_pos (div_pos (by norm_num) hzb) _)
  have hXnn : (0:ℝ) ≤ 0.63 * ((B + h) /
      (t.l * (max (0.6 * h) t.z_min / 33) ^ t.epsilon_bar)) ^ (0.63:ℝ) :=
    mul_nonneg (by norm_num) (Real.rpow_nonneg (div_pos hB hLz).le _)
  have hQ : 0 < Real.sqrt (1 / (1 + 0.63 * ((B + h) /
      (t.l * (max (0.6 * h) t.z_min / 33) ^ t.epsilon_bar)) ^ (0.63:ℝ))) :=
    Real.sqrt_pos.mpr (div_pos one_pos (by linarith))
  have hnum : (0:ℝ) < 1 + 1.7 * 3.4 *
      (t.c * (33 / max (0.6 * h) t.z_min) ^ ((1:ℝ)/6)) *
      Real.sqrt (1 / (1 + 0.63 * ((B + h) /
        (t.l * (max (0.6 * h) t.z_min / 33) ^ t.epsilon_bar)) ^ (0.63:ℝ))) := by
    have := mul_pos (mul_pos (by norm_num : (0:ℝ) < 1.7 * 3.4) hIz) hQ
    linarith
  have hden : (0:ℝ) < 1 + 1.7 * 3.4 *
      (t.c * (33 / max (0.6 * h) t.z_min) ^ ((1:ℝ)/6)) := by
    have := mul_pos (by norm_num : (0:ℝ) < 1.7 * 3.4) hIz
    linarith
  exact mul_pos (by norm_num) (div_pos hnum hden)

theorem calcKzScenario (t : Table26_11_1) :
    calc_K_z 15 t.z_g t.alpha =
      .ok (2.41 * (max (min 15 t.z_g) 15 / t.z_g) ^ (2 / t.alpha)) := by
  rw [calc_K_z, if_neg (by norm_num)]

/-- The aggregator's `a` output is `calc_a` of the plan dimensions,
whatever the table row (general run of the end-to-end scenario). -/
theorem aggARun (t : Table26_11_1) :
    (calc_wind_server_inputs t 115 60 40 15 1 0 none).map ServerInputs.a =
      .ok (calc_a 60 40 15) := by
  rw [calc_wind_server_inputs]
  simp [calcKzScenario t, pyTruthyO, Except.map]

/-- Counterexample to C7 as stated: in the end-to-end scenario
(`L_x = 60 ft`, `L_y = 40 ft`, `h = 15 ft`) the aggregator computes
`a = 4 ft` (`min(6, 4, 6) = 4`, floored at `max(1.6, 3) = 3`), not the
claimed `3 ft`. -/
theorem C7_a_counterexample :
    (calc_wind_server_inputs tableW 115 60 40 15 1 0 none).map ServerInputs.a
      = .ok 4 ∧
    (calc_wind_server_inputs tableW 115 60 40 15 1 0 none).map ServerInputs.a
      ≠ .ok 3 := by
  rw [aggARun tableW, calcAScenario]
  exact ⟨rfl, fun h => absurd (Except.ok.inj h) (by norm_num)⟩

/-- Amended C7: the aggregator's C&C zone dimension always equals the
spec's clamp form `max(min(0.1*L_x, 0.1*L_y, 0.4*h), max(0.04*min(L_x,
L_y), 3 ft))`, and the end-to-end scenario (exposure row with positive
`z_g`, `c`, `l`; `V = 115 mph`, `L_x = 60 ft`, `L_y = 40 ft`,
`h = 15 ft`, flat roof) succeeds with positive `q_h`, `G_x`, `G_y` and
`a = 4 ft`. -/
theorem C7_aggregator_amended :
    (∀ (t : Table26_11_1) (V L_x L_y h K_zt Z_e : ℝ) (h_p : Option ℝ)
        (out : ServerInputs),
      calc_wind_server_inputs t V L_x L_y h K_zt Z_e h_p = .ok out →
      out.a = max (min (min (0.1 * L_x) (0.1 * L_y)) (0.4 * h))
        (max (0.04 * min L_x L_y) 3)) ∧
    (∀ t : Table26_11_1, 0 < t.z_g → 0 < t.c → 0 < t.l →
      ∃ out, calc_wind_server_inputs t 115 60 40 15 1 0 none = .ok out ∧
        0 < out.q_h ∧ 0 < out.G_x ∧ 0 < out.G_y ∧ out.a = 4) := by
  constructor
  · intro t V L_x L_y h K_zt Z_e h_p out hout
    rw [calc_wind_server_inputs] at hout
    rcases hK : calc_K_z h t.z_g t.alpha with e | Kh
    · rw [hK] at hout; simp at hout
    simp only [hK, exceptBindOk] at hout
    by_cases hhp : pyTruthyO h_p = true
    · rw [if_pos hhp] at hout
      rcases hq : reqNum h_p with e | hpv
      · rw [hq] at hout; simp at hout
      simp only [hq, exceptBindOk] at hout
      rcases hK2 : calc_K_z hpv t.z_g t.alpha with e | Kp
      · rw [hK2] at hout; simp at hout
      simp only [hK2, exceptBindOk, Except.ok.injEq] at hout
      rw [← hout]
      exact calcAClamp L_x L_y h
    · rw [if_neg hhp] at hout
      simp only [exceptBindOk, Except.ok.injEq] at hout
      rw [← hout]
      exact calcAClamp L_x L_y h
  · intro t hzg hc hl
    have hbase : 0 < max (min 15 t.z_g) 15 / t.z_g :=
      div_pos ((by norm_num : (0:ℝ) < 15).trans_le (le_max_right _ _)) hzg
    have hKh : 0 < 2.41 * (max (min 15 t.z_g) 15 / t.z_g) ^ (2 / t.alpha) :=
      mul_pos (by norm_num) (Real.rpow_pos_of_pos hbase _)
    refine ⟨{
        K_e := Real.exp (-0.0000362 * 0)
        q_h := calc_q_z
          (2.41 * (max (min 15 t.z_g) 15 / t.z_g) ^ (2 / t.alpha)) 1
          (Real.exp (-0.0000362 * 0)) 115
        q_p := none
        G_x := calc_G t 40 15
        G_y := calc_G t 60 15
        a := calc_a 60 40 15 }, ?_, ?_, ?_, ?_, ?_⟩
    · rw [calc_wind_server_inputs]
      simp [calcKzScenario t, pyTruthyO]
    · exact calcQzPos hKh one_pos (Real.exp_pos _) (by norm_num)
    · exact calcGPos t 40 15 hc hl (by norm_num) (by norm_num)
    · exact calcGPos t 60 15 hc hl (by norm_num) (by norm_num)
    · exact calcAScenario

/-- Witness for the amended C7 at a concrete positive exposure row. -/
theorem C7_aggregator_amended_witness :
    ∃ out, calc_wind_server_inputs tableW 115 60 40 15 1 0 none = .ok out ∧
      0 < out.q_h ∧ 0 < out.G_x ∧ 0 < out.G_y ∧ out.a = 4 :=
  C7_aggregator_amended.2 tableW (by norm_num [tableW]) (by norm_num [tableW])
    (by norm_num [tableW])
